import Mathlib

/-!
Shallow embedding of the authentication / authorization core of
`syncblaze/open-gym-stats` (files `app/api/v1/authentication.py`,
`app/api/v1/users.py`, `app/sql/crud.py`, `app/enums.py`).

External collaborators are passed in as explicit parameters:
`hashpw : String → String → String` models `bcrypt.hashpw(password, salt)`,
`totpOk : String → String → Bool` models `pyotp.TOTP(secret).verify(code)`,
`findUser : String → Option User` models `crud.get_user_by_username`,
`stream : Nat → Nat` models the stream of values drawn by `secrets.choice`,
and the result of `jwt.decode` for a given token string at the current time
is modelled by a `DecodeResult` argument.  The revocation cache
(`ExpiringDict`) is modelled by the list of token strings currently alive
in it; expiry/eviction removes entries from that list, which theorems treat
by quantifying over cache states.
-/

deriving instance DecidableEq for Except

namespace OpenGymStats

/-- An HTTP error as raised by `fastapi.HTTPException`: status code, detail
string, and the optional `WWW-Authenticate` response header. -/
structure HTTPError where
  status : Nat
  detail : String
  wwwAuthenticate : Option String
deriving Repr, DecidableEq

/-- Constant `CREDENTIALS_EXCEPTION` of authentication.py lines 36-40. -/
def CREDENTIALS_EXCEPTION : HTTPError :=
  ⟨401, "Could not validate credentials", some "Bearer"⟩

/-- Constant `NEW_MAIL` of authentication.py lines 51-55. -/
def NEW_MAIL : HTTPError := ⟨401, "New email set", some "Bearer"⟩

/-- The error raised at authentication.py lines 151-155 and 156-160: same
status and detail for an unknown username and for a wrong password. -/
def LOGIN_FAILED : HTTPError :=
  ⟨400, "The combination of username/email and passwort is incorrect", none⟩

/-- Raised at authentication.py line 165 when MFA is enabled but no code
was submitted with the login form. -/
def MFA_REQUIRED_LOGIN : HTTPError := ⟨401, "2FA is required", none⟩

/-- Raised at authentication.py line 173 and users.py line 39. -/
def RECOVERY_USED : HTTPError := ⟨400, "Recovery code already used!", none⟩

/-- Raised at authentication.py line 179 when no recovery code matched. -/
def INVALID_2FA_LOGIN : HTTPError := ⟨400, "Invalid 2fa code", none⟩

/-- Raised at users.py line 196 when the submitted old password is wrong. -/
def WRONG_PASSWORD : HTTPError := ⟨400, "Wrong Password", none⟩

/-- Raised at users.py line 198 when MFA is on and no token was sent. -/
def MFA_REQUIRED_ROUTE : HTTPError := ⟨400, "2fa is required", none⟩

/-- Raised at users.py line 201 (dead branch kept for faithfulness). -/
def MFA_CODE_REQUIRED : HTTPError := ⟨400, "2fa code is required", none⟩

/-- Raised at users.py line 203 when `is_valid_2fa_token` returns False. -/
def INVALID_2FA_ROUTE : HTTPError := ⟨400, "Invalid 2fa code", none⟩

/-- Raised at users.py lines 205-208 when old and new password coincide. -/
def SAME_PASSWORD : HTTPError :=
  ⟨400, "Old password and new password are the same", none⟩

/-- Raised at users.py line 210 when the new password is under 8 chars. -/
def PASSWORD_TOO_SHORT : HTTPError := ⟨400, "Password too short", none⟩

/-- Raised at authentication.py line 139 for a banned resolved user. -/
def BANNED_ERROR : HTTPError := ⟨400, "Banned user", none⟩

/-- A Python `assert` failure (e.g. `assert user.mfa_secret is not None`)
surfaces as a server error, not one of the HTTP error values above. -/
def ASSERTION_ERROR : HTTPError := ⟨500, "AssertionError", none⟩

/-- The `Permissions` IntFlag of enums.py lines 10-16: declaration-ordered
list of (bit value, name).  `NONE` carries value 0 and is therefore never
emitted by `get_scopes`. -/
def permEnum : List (Nat × String) :=
  [(0, "NONE"), (1, "ME"), (2, "VIEW_USERS"), (4, "DELETE_USERS"),
   (8, "EDIT_USERS"), (16, "DISABLE_2FA")]

/-- Method `Permissions.get_scopes` (enums.py lines 36-49): the names of the known
permissions whose bit is set in the mask, in declaration order. -/
def get_scopes (v : Nat) : List String :=
  (permEnum.filter (fun p => v &&& p.1 != 0)).map (fun p => p.2)

/-- A row of the `recovery_codes` table (models.py). -/
structure RecoveryCode where
  id : Nat
  code : String
  used : Bool
deriving Repr, DecidableEq

/-- A user record together with its one-to-one email record: `emailAddr`
is `user.email.email`, `password`/`salt` model the bcrypt hash and salt
bytes as strings, `recoveryCodes` is the user's `recovery_codes`
relationship in table order. -/
structure User where
  id : Nat
  username : String
  emailAddr : String
  banned : Bool
  permissions : Nat
  owner : Bool
  mfa : Bool
  mfa_secret : Option String
  password : String
  salt : String
  recoveryCodes : List RecoveryCode
deriving Repr, DecidableEq

/-- The claim set obtained from `jwt.decode` (authentication.py lines
89-98): `payload.get` of "sub", "email", "user_agent" may be absent,
"scopes" defaults to the empty list. -/
structure Payload where
  sub : Option String
  email : Option String
  user_agent : Option String
  scopes : List String
deriving Repr, DecidableEq

/-- Outcome of `jwt.decode` on a token string at the current instant:
a valid unexpired token yields its payload; an expired token raises
`ExpiredSignatureError` and a forged/garbled one a generic `JWTError`,
both subclasses of the `JWTError` caught at authentication.py line 99. -/
inductive DecodeResult where
  | ok (payload : Payload)
  | expired
  | invalid
deriving Repr, DecidableEq

/-- Result of the recovery-code `for` loop shared by authentication.py
lines 169-179 and users.py lines 35-44: either the loop raised
"Recovery code already used!" at some matching used code (carrying the
code list as committed at that point: earlier matching codes already
marked used), or it finished with the found flag and the updated list.
`set_recovery_code_used` (crud.py lines 120-127) commits each mark
immediately, which is why marks made before a raise persist. -/
inductive ConsumeResult where
  | alreadyUsed (codes : List RecoveryCode)
  | done (found : Bool) (codes : List RecoveryCode)
deriving Repr, DecidableEq

/-- The recovery-code loop: walk the codes in order; a matching used code
raises; a matching unused code is marked used (and the walk continues,
never breaking early, exactly as the Python `for` does). -/
def consumeCodes (tok : String) (found : Bool) :
    List RecoveryCode → ConsumeResult
  | [] => .done found []
  | c :: rest =>
    if c.code = tok then
      if c.used then .alreadyUsed (c :: rest)
      else
        match consumeCodes tok true rest with
        | .alreadyUsed cs => .alreadyUsed ({ c with used := true } :: cs)
        | .done f cs => .done f ({ c with used := true } :: cs)
    else
      match consumeCodes tok found rest with
      | .alreadyUsed cs => .alreadyUsed (c :: cs)
      | .done f cs => .done f (c :: cs)

/-- Function `is_valid_2fa_token` (users.py lines 31-46).  Returns the verification
outcome together with the user state after any recovery-code consumption;
the `assert user.mfa_secret is not None` is modelled as a server error. -/
def is_valid_2fa_token (totpOk : String → String → Bool) (tok : String)
    (user : User) : Except HTTPError Bool × User :=
  match user.mfa_secret with
  | none => (.error ASSERTION_ERROR, user)
  | some secret =>
    if totpOk secret tok then (.ok true, user)
    else
      match consumeCodes tok false user.recoveryCodes with
      | .alreadyUsed cs => (.error RECOVERY_USED, { user with recoveryCodes := cs })
      | .done f cs => (.ok f, { user with recoveryCodes := cs })

/-- Value `authenticate_value` (authentication.py lines 82-85). -/
def authValue (scopes : List String) : String :=
  if scopes ≠ [] then "Bearer scope=\"" ++ String.intercalate " " scopes ++ "\""
  else "Bearer"

/-- The scope loop of `get_current_user` (authentication.py lines
109-130): `av` is the precomputed `authenticate_value`; returns the first
error raised, or `none` when every required scope passes. -/
def checkScopes (av : String) (user : User) (tokenScopes : List String) :
    List String → Option HTTPError
  | [] => none
  | scope :: rest =>
    if ¬ tokenScopes.contains scope then
      some ⟨401, "Not enough permissions", some av⟩
    else if user.owner then checkScopes av user tokenScopes rest
    else if scope = "OWNER" ∧ ¬ user.owner then
      some ⟨401, "Not enough permissions", some av⟩
    else if ¬ (get_scopes user.permissions).contains scope ∧ scope ≠ "OWNER" then
      some ⟨401, "Not enough permissions", some av⟩
    else checkScopes av user tokenScopes rest

/-- Dependency `get_current_user` (authentication.py lines 76-131).  Inputs: the
declared security scopes, the request's optional `User-Agent` header, the
raw token string (the cache key), the outcome of `jwt.decode` on it, the
user lookup and the current revocation-cache contents.  Output: the
resolved user or the raised error, paired with the cache contents after
the call (the only mutation is the burn at line 94). -/
def get_current_user (requiredScopes : List String) (reqUA : Option String)
    (token : String) (decode : DecodeResult) (findUser : String → Option User)
    (cache : List String) : Except HTTPError User × List String :=
  if cache.contains token then (.error CREDENTIALS_EXCEPTION, cache)
  else
    match decode with
    | .expired => (.error CREDENTIALS_EXCEPTION, cache)
    | .invalid => (.error CREDENTIALS_EXCEPTION, cache)
    | .ok payload =>
      if payload.user_agent ≠ some (reqUA.getD "Null") then
        (.error CREDENTIALS_EXCEPTION, token :: cache)
      else
        match payload.sub, payload.email with
        | none, _ => (.error CREDENTIALS_EXCEPTION, cache)
        | some _, none => (.error CREDENTIALS_EXCEPTION, cache)
        | some username, some email =>
          match findUser username with
          | none => (.error CREDENTIALS_EXCEPTION, cache)
          | some user =>
            if user.emailAddr ≠ email then (.error NEW_MAIL, cache)
            else
              match checkScopes (authValue requiredScopes) user payload.scopes
                  requiredScopes with
              | some e => (.error e, cache)
              | none => (.ok user, cache)

/-- Dependency `get_current_active_user` (authentication.py lines 134-140): validate,
then gate on the banned flag. -/
def get_current_active_user (requiredScopes : List String)
    (reqUA : Option String) (token : String) (decode : DecodeResult)
    (findUser : String → Option User) (cache : List String) :
    Except HTTPError User × List String :=
  match get_current_user requiredScopes reqUA token decode findUser cache with
  | (.error e, c) => (.error e, c)
  | (.ok user, c) =>
    if user.banned then (.error BANNED_ERROR, c) else (.ok user, c)

/-- The claims dict signed into the access token by `login`
(authentication.py lines 184-193). -/
structure IssuedToken where
  sub : String
  email : String
  scopes : List String
  ip : String
  user_agent : String
deriving Repr, DecidableEq

/-- The MFA block of the `login` route (authentication.py lines 163-179):
nothing for a non-MFA user; otherwise require a submitted code (Python's
`not form_data.mfa` is also true for the empty string), try TOTP, then
walk the recovery codes with the shared loop.  Returns pass/fail with the
(possibly recovery-code-mutated) user record. -/
def mfaGate (totpOk : String → String → Bool) (user : User)
    (formMfa : Option String) : Except HTTPError Unit × User :=
  if user.mfa then
    if formMfa = none ∨ formMfa = some "" then
      (.error MFA_REQUIRED_LOGIN, user)
    else
      match user.mfa_secret with
      | none => (.error ASSERTION_ERROR, user)
      | some secret =>
        let code := formMfa.getD ""
        if totpOk secret code then (.ok (), user)
        else
          match consumeCodes code false user.recoveryCodes with
          | .alreadyUsed cs =>
            (.error RECOVERY_USED, { user with recoveryCodes := cs })
          | .done false cs =>
            (.error INVALID_2FA_LOGIN, { user with recoveryCodes := cs })
          | .done true cs => (.ok (), { user with recoveryCodes := cs })
  else (.ok (), user)

/-- The `login` route (authentication.py lines 143-194): resolve the
username, verify the password (same error value as for an unknown user),
pass the MFA gate, then sign the token claims, appending `OWNER` to the
client-requested scopes exactly when the user's owner flag is set. -/
def login (hashpw : String → String → String)
    (totpOk : String → String → Bool) (findUser : String → Option User)
    (formUsername formPassword : String) (formScopes : List String)
    (formMfa : Option String) (reqIp : Option String)
    (reqUA : Option String) : Except HTTPError IssuedToken × Option User :=
  match findUser formUsername with
  | none => (.error LOGIN_FAILED, none)
  | some user =>
    if hashpw formPassword user.salt ≠ user.password then
      (.error LOGIN_FAILED, some user)
    else
      match mfaGate totpOk user formMfa with
      | (.error e, user') => (.error e, some user')
      | (.ok _, user') =>
        let grantedScopes :=
          if user'.owner then formScopes ++ ["OWNER"] else formScopes
        (.ok { sub := user'.username, email := user'.emailAddr,
               scopes := grantedScopes, ip := reqIp.getD "Null",
               user_agent := reqUA.getD "Null" }, some user')

/-- The tail of the `change_password` route (users.py lines 205-215) after
the password and MFA gates: same-password check, length check, then
`crud.change_password` (crud.py lines 160-168), which draws a fresh salt
and replaces the hash. -/
def changePasswordTail (hashpw : String → String → String) (newSalt : String)
    (user : User) (oldPassword newPassword : String) :
    Except HTTPError User × User :=
  if oldPassword = newPassword then (.error SAME_PASSWORD, user)
  else if newPassword.length < 8 then (.error PASSWORD_TOO_SHORT, user)
  else
    let user' :=
      { user with
        salt := newSalt,
        password := hashpw newPassword newSalt }
    (.ok user', user')

/-- The `change_password` route (users.py lines 185-215): verify the old
password, pass the MFA gate (consuming a recovery code if one is
submitted), then delegate to `changePasswordTail`.  The second component
is the stored user state after the call, error or not. -/
def change_password (hashpw : String → String → String)
    (totpOk : String → String → Bool) (newSalt : String) (user : User)
    (oldPassword newPassword : String) (mfaToken : Option String) :
    Except HTTPError User × User :=
  if hashpw oldPassword user.salt ≠ user.password then
    (.error WRONG_PASSWORD, user)
  else if user.mfa ∧ (mfaToken = none ∨ mfaToken = some "") then
    (.error MFA_REQUIRED_ROUTE, user)
  else if user.mfa then
    match mfaToken with
    | none => (.error MFA_CODE_REQUIRED, user)
    | some tok =>
      match is_valid_2fa_token totpOk tok user with
      | (.error e, user') => (.error e, user')
      | (.ok false, user') => (.error INVALID_2FA_ROUTE, user')
      | (.ok true, user') =>
        changePasswordTail hashpw newSalt user' oldPassword newPassword
  else changePasswordTail hashpw newSalt user oldPassword newPassword

/-- The alphabet used by `generate_recovery_codes` (crud.py line 69):
`string.ascii_letters + string.digits`. -/
def characters : List Char :=
  ("abcdefghijklmnopqrstuvwxyzABCDEFGHIJKLMNOPQRSTUVWXYZ0123456789").toList

/-- One draw of `secrets.choice(characters)`: the randomness source is the
stream of drawn indices, reduced modulo the alphabet size so that every
draw is an element of the alphabet. -/
def choiceChar (stream : Nat → Nat) (i : Nat) : Char :=
  characters.getD (stream i % characters.length) 'a'

/-- One 4-character group of a recovery code (crud.py lines 71/73),
consuming stream positions `base..base+3`. -/
def genGroup (stream : Nat → Nat) (base : Nat) : String :=
  String.mk ((List.range 4).map (fun j => choiceChar stream (base + j)))

/-- One recovery code: two 4-character groups joined by a space. -/
def genCode (stream : Nat → Nat) (base : Nat) : String :=
  genGroup stream base ++ " " ++ genGroup stream (base + 4)

/-- Function `generate_recovery_codes` (crud.py lines 68-81): every activation draws
8 codes in order from the stream. -/
def generate_recovery_codes (stream : Nat → Nat) : List String :=
  (List.range 8).map (fun k => genCode stream (8 * k))

/-- Function `activate_2fa` (crud.py lines 84-95): set the mfa flag, delete every
existing recovery code of the user, then insert the freshly generated
batch (with fresh row ids) and return the code strings to the caller. -/
def activate_2fa (stream : Nat → Nat) (firstId : Nat) (user : User) :
    User × List String :=
  let codes := generate_recovery_codes stream
  ({ user with
     mfa := true,
     recoveryCodes := codes.enum.map (fun p => ⟨firstId + p.1, p.2, false⟩) },
   codes)

/-- The shape asserted by the spec for recovery codes: exactly nine
characters — two groups of four alphabet characters separated by a
single space. -/
def isRecoveryCodeFormat (s : String) : Bool :=
  match s.toList with
  | [a, b, c, d, e, f, g, h, i] =>
    e = ' ' && ([a, b, c, d, f, g, h, i].all (fun x => characters.contains x))
  | _ => false

/-! ### Helper definitions and lemmas about the recovery-code loop -/

/-- The code list carried by a `ConsumeResult`, whichever way the loop
ended. -/
def ConsumeResult.codes : ConsumeResult → List RecoveryCode
  | .alreadyUsed cs => cs
  | .done _ cs => cs

/-- Mark every code whose string matches `tok` as used. -/
def markUsed (tok : String) (l : List RecoveryCode) : List RecoveryCode :=
  l.map (fun c => if c.code = tok then { c with used := true } else c)

/-- Pointwise relation between a code list and its successor state: same
rows (ids and strings) in the same order, and the used flag only ever
goes from false to true. -/
def usedMonotone : List RecoveryCode → List RecoveryCode → Prop
  | [], [] => True
  | c :: cs, d :: ds =>
    c.id = d.id ∧ c.code = d.code ∧ (c.used = true → d.used = true) ∧
      usedMonotone cs ds
  | _, _ => False

theorem usedMonotone_refl : ∀ l : List RecoveryCode, usedMonotone l l
  | [] => trivial
  | _ :: cs => ⟨rfl, rfl, fun h => h, usedMonotone_refl cs⟩

/-- If every code matching `tok` is still unused, the loop never raises:
it finishes, reports whether some code matched, and marks every matching
code used. -/
theorem consumeCodes_all_unused (tok : String) :
    ∀ (l : List RecoveryCode) (f : Bool),
      (∀ c ∈ l, c.code = tok → c.used = false) →
      consumeCodes tok f l =
        .done (f || l.any (fun c => c.code == tok)) (markUsed tok l) := by
  intro l
  induction l with
  | nil => intro f _; simp [consumeCodes, markUsed]
  | cons c cs ih =>
    intro f h
    have hcs : ∀ d ∈ cs, d.code = tok → d.used = false := by
      intro d hd; exact h d (List.mem_cons_of_mem _ hd)
    by_cases hc : c.code = tok
    · have hcu : c.used = false := h c (List.mem_cons_self _ _) hc
      simp only [consumeCodes, if_pos hc, hcu, ih true hcs]
      simp [markUsed, hc, List.any_cons]
    · simp only [consumeCodes, if_neg hc, ih f hcs]
      have hb : (c.code == tok) = false := beq_eq_false_iff_ne.mpr hc
      simp [markUsed, hc, hb, List.any_cons]

/-- If every code matching `tok` is already used, the loop either raises
"already used" at the first match, leaving the list untouched, or (when
nothing matches) finishes with the list untouched. -/
theorem consumeCodes_all_used (tok : String) :
    ∀ (l : List RecoveryCode) (f : Bool),
      (∀ c ∈ l, c.code = tok → c.used = true) →
      consumeCodes tok f l =
        if l.any (fun c => c.code == tok) then .alreadyUsed l else .done f l := by
  intro l
  induction l with
  | nil => intro f _; simp [consumeCodes]
  | cons c cs ih =>
    intro f h
    have hcs : ∀ d ∈ cs, d.code = tok → d.used = true := by
      intro d hd; exact h d (List.mem_cons_of_mem _ hd)
    by_cases hc : c.code = tok
    · have hcu : c.used = true := h c (List.mem_cons_self _ _) hc
      simp [consumeCodes, if_pos hc, hcu, List.any_cons, hc]
    · simp only [consumeCodes, if_neg hc, ih f hcs]
      by_cases ha : cs.any (fun c => c.code == tok)
      · simp [List.any_cons, hc, ha]
      · simp [List.any_cons, hc, ha]

/-- If no code matches `tok`, the loop is a no-op. -/
theorem consumeCodes_no_match (tok : String) :
    ∀ (l : List RecoveryCode) (f : Bool),
      (∀ c ∈ l, c.code ≠ tok) → consumeCodes tok f l = .done f l := by
  intro l
  induction l with
  | nil => intro f _; simp [consumeCodes]
  | cons c cs ih =>
    intro f h
    have hc : c.code ≠ tok := h c (List.mem_cons_self _ _)
    have hcs : ∀ d ∈ cs, d.code ≠ tok := fun d hd =>
      h d (List.mem_cons_of_mem _ hd)
    simp [consumeCodes, if_neg hc, ih f hcs]

/-- Whatever the loop does, the used flags only ever move from false to
true, and ids and code strings never change. -/
theorem consumeCodes_monotone (tok : String) :
    ∀ (l : List RecoveryCode) (f : Bool),
      usedMonotone l (consumeCodes tok f l).codes := by
  intro l
  induction l with
  | nil => intro f; simp [consumeCodes, ConsumeResult.codes, usedMonotone]
  | cons c cs ih =>
    intro f
    by_cases hc : c.code = tok
    · by_cases hu : c.used
      · simp only [consumeCodes, if_pos hc, if_pos hu, ConsumeResult.codes]
        exact ⟨rfl, rfl, fun h => h, usedMonotone_refl cs⟩
      · simp only [consumeCodes, if_pos hc, if_neg hu]
        have := ih true
        cases hrec : consumeCodes tok true cs with
        | alreadyUsed ds =>
          rw [hrec] at this
          exact ⟨rfl, rfl, fun _ => rfl, this⟩
        | done g ds =>
          rw [hrec] at this
          exact ⟨rfl, rfl, fun _ => rfl, this⟩
    · simp only [consumeCodes, if_neg hc]
      have := ih f
      cases hrec : consumeCodes tok f cs with
      | alreadyUsed ds =>
        rw [hrec] at this
        exact ⟨rfl, rfl, fun h => h, this⟩
      | done g ds =>
        rw [hrec] at this
        exact ⟨rfl, rfl, fun h => h, this⟩

/-! ### Lemmas about the scope loop and `is_valid_2fa_token` -/

/-- The condition under which one required scope survives the loop body of
authentication.py lines 109-130: it must be in the token's scope claim,
and a non-owner must additionally hold it in the live permission bitmask
(with `OWNER` never passing for a non-owner, since `get_scopes` never
emits `OWNER`). -/
def scopeAllowed (user : User) (tokenScopes : List String) (scope : String) :
    Bool :=
  tokenScopes.contains scope &&
    (user.owner ||
      (!(scope == "OWNER") && (get_scopes user.permissions).contains scope))

theorem checkScopes_eq_none_iff (av : String) (user : User)
    (ts : List String) :
    ∀ l : List String,
      checkScopes av user ts l = none ↔
        ∀ s ∈ l, scopeAllowed user ts s = true := by
  intro l
  induction l with
  | nil => simp [checkScopes]
  | cons s rest ih =>
    simp only [checkScopes, List.forall_mem_cons]
    by_cases hts : s ∈ ts
    · by_cases how : user.owner = true
      · simp [hts, how, ih, scopeAllowed]
      · by_cases hOWN : s = "OWNER"
        · simp [hts, how, hOWN, scopeAllowed]
        · by_cases hus : s ∈ get_scopes user.permissions
          · simp [hts, how, hOWN, hus, ih, scopeAllowed]
          · simp [hts, how, hOWN, hus, scopeAllowed]
    · simp [hts, scopeAllowed]

/-- The loop raises exactly one error value: every failure is the 401
"Not enough permissions" with the request's authenticate header. -/
theorem checkScopes_eq_none_or_err (av : String) (user : User)
    (ts : List String) :
    ∀ l : List String,
      checkScopes av user ts l = none ∨
        checkScopes av user ts l =
          some ⟨401, "Not enough permissions", some av⟩ := by
  intro l
  induction l with
  | nil => exact Or.inl rfl
  | cons s rest ih =>
    simp only [checkScopes]
    split
    · exact Or.inr rfl
    · split
      · exact ih
      · split
        · exact Or.inr rfl
        · split
          · exact Or.inr rfl
          · exact ih

/-- Function `is_valid_2fa_token` only ever touches the recovery-code list, and
there only monotonically flips used flags. -/
theorem is_valid_2fa_token_state (totpOk : String → String → Bool)
    (tok : String) (user : User) :
    (is_valid_2fa_token totpOk tok user).2.id = user.id ∧
    (is_valid_2fa_token totpOk tok user).2.username = user.username ∧
    (is_valid_2fa_token totpOk tok user).2.emailAddr = user.emailAddr ∧
    (is_valid_2fa_token totpOk tok user).2.banned = user.banned ∧
    (is_valid_2fa_token totpOk tok user).2.permissions = user.permissions ∧
    (is_valid_2fa_token totpOk tok user).2.owner = user.owner ∧
    (is_valid_2fa_token totpOk tok user).2.mfa = user.mfa ∧
    (is_valid_2fa_token totpOk tok user).2.mfa_secret = user.mfa_secret ∧
    (is_valid_2fa_token totpOk tok user).2.password = user.password ∧
    (is_valid_2fa_token totpOk tok user).2.salt = user.salt ∧
    usedMonotone user.recoveryCodes
      (is_valid_2fa_token totpOk tok user).2.recoveryCodes := by
  unfold is_valid_2fa_token
  cases hsec : user.mfa_secret with
  | none => simp [usedMonotone_refl, hsec]
  | some secret =>
    by_cases htotp : totpOk secret tok
    · simp [htotp, usedMonotone_refl, hsec]
    · cases hrec : consumeCodes tok false user.recoveryCodes with
      | alreadyUsed cs =>
        have hmono := consumeCodes_monotone tok user.recoveryCodes false
        rw [hrec] at hmono
        simp only [ConsumeResult.codes] at hmono
        simp [htotp, hsec, hmono]
      | done f cs =>
        have hmono := consumeCodes_monotone tok user.recoveryCodes false
        rw [hrec] at hmono
        simp only [ConsumeResult.codes] at hmono
        simp [htotp, hsec, hmono]

/-! ### Path lemmas for `get_current_user` and `login` -/

/-- A token found in the revocation cache fails immediately, whatever the
rest of the request looks like. -/
theorem get_current_user_cached (requiredScopes : List String)
    (reqUA : Option String) (token : String) (decode : DecodeResult)
    (findUser : String → Option User) (cache : List String)
    (hc : token ∈ cache) :
    get_current_user requiredScopes reqUA token decode findUser cache =
      (.error CREDENTIALS_EXCEPTION, cache) := by
  simp [get_current_user, hc]

/-- An uncached token whose user-agent claim differs from the request's
header is rejected and burned into the cache. -/
theorem get_current_user_ua_mismatch (requiredScopes : List String)
    (reqUA : Option String) (token : String) (payload : Payload)
    (findUser : String → Option User) (cache : List String)
    (hnc : token ∉ cache)
    (hua : payload.user_agent ≠ some (reqUA.getD "Null")) :
    get_current_user requiredScopes reqUA token (.ok payload) findUser cache =
      (.error CREDENTIALS_EXCEPTION, token :: cache) := by
  simp [get_current_user, hnc, hua]

/-- Once the cache, decode, user-agent, claim-presence, lookup and email
checks all pass, the outcome is exactly the scope loop's verdict. -/
theorem get_current_user_resolved (requiredScopes : List String)
    (reqUA : Option String) (token : String) (payload : Payload)
    (findUser : String → Option User) (cache : List String)
    (username email : String) (user : User)
    (hnc : token ∉ cache)
    (hua : payload.user_agent = some (reqUA.getD "Null"))
    (hsub : payload.sub = some username) (hem : payload.email = some email)
    (hfu : findUser username = some user) (hmail : user.emailAddr = email) :
    get_current_user requiredScopes reqUA token (.ok payload) findUser cache =
      (match checkScopes (authValue requiredScopes) user payload.scopes
          requiredScopes with
       | some e => (.error e, cache)
       | none => (.ok user, cache)) := by
  simp [get_current_user, hnc, hua, hsub, hem, hfu, hmail]

/-- The MFA gate of `login` only ever touches the recovery-code list. -/
theorem mfaGate_owner (totpOk : String → String → Bool) (user : User)
    (formMfa : Option String) :
    (mfaGate totpOk user formMfa).2.owner = user.owner := by
  unfold mfaGate
  dsimp only
  repeat' split
  all_goals rfl

/-- Inversion of a successful `login`: the resolved user exists, and the
signed claims carry the granted scopes, the request ip and the request
user-agent (defaulted to "Null"). -/
theorem login_ok_inv (hashpw : String → String → String)
    (totpOk : String → String → Bool) (findUser : String → Option User)
    (un pw : String) (scopes : List String) (mfa : Option String)
    (ip ua : Option String) (tok : IssuedToken) (after : Option User)
    (h : login hashpw totpOk findUser un pw scopes mfa ip ua =
      (.ok tok, after)) :
    ∃ user u', findUser un = some user ∧ after = some u' ∧
      u'.owner = user.owner ∧
      tok.scopes = (if user.owner then scopes ++ ["OWNER"] else scopes) ∧
      tok.sub = u'.username ∧ tok.email = u'.emailAddr ∧
      tok.ip = ip.getD "Null" ∧ tok.user_agent = ua.getD "Null" := by
  unfold login at h
  cases hfu : findUser un with
  | none => rw [hfu] at h; simp at h
  | some user =>
    rw [hfu] at h
    dsimp only at h
    by_cases hpw : hashpw pw user.salt ≠ user.password
    · rw [if_pos hpw] at h; simp at h
    · rw [if_neg hpw] at h
      rcases hmg : mfaGate totpOk user mfa with ⟨r, u'⟩
      rw [hmg] at h
      cases r with
      | error e => simp at h
      | ok _ =>
        dsimp only at h
        simp only [Prod.mk.injEq, Except.ok.injEq] at h
        obtain ⟨htok, hafter⟩ := h
        refine ⟨user, u', rfl, hafter.symm, ?_, ?_, ?_, ?_, ?_, ?_⟩
        · have := mfaGate_owner totpOk user mfa
          rw [hmg] at this; exact this
        · have hown : u'.owner = user.owner := by
            have := mfaGate_owner totpOk user mfa
            rw [hmg] at this; exact this
          rw [← htok]
          simp [hown]
        · rw [← htok]
        · rw [← htok]
        · rw [← htok]
        · rw [← htok]

/-! ### Concrete fixtures used by witnesses and counterexamples -/

/-- An owner account (permission bit `ME` only, owner flag set). -/
def ownerUser : User :=
  ⟨1, "alice", "alice@example.com", false, 1, true, false, none,
   "secrets", "s", []⟩

/-- A plain account: non-owner, `ME` bit, no MFA; its password hash is
`"pw0salt0"` so that the fixture hasher `fun p s => p ++ s` verifies the
password `"pw0"`. -/
def plainUser : User :=
  ⟨2, "bob", "bob@example.com", false, 1, false, false, none,
   "pw0salt0", "salt0", []⟩

/-- An MFA-enabled account holding one unused recovery code. -/
def mfaUser : User :=
  ⟨3, "carol", "carol@example.com", false, 1, false, true, some "SECRET",
   "pwsalt", "salt", [⟨1, "AB12 CD34", false⟩]⟩

/-- A banned account. -/
def bannedUser : User :=
  ⟨4, "dave", "dave@example.com", true, 1, false, false, none, "h", "s", []⟩

/-! ### Claim C2 -/

/-- C2: an uncached, decodable token whose bound user-agent differs from
the request's is rejected with the generic authentication failure and
inserted into the revocation cache; afterwards, any validation of the
same token — whatever user-agent, scopes, decode outcome or lookup it
presents, including the original issuance user-agent — fails for as long
as the cache entry lives. -/
theorem c2_ua_mismatch_burns_token (requiredScopes : List String)
    (reqUA : Option String) (token : String) (payload : Payload)
    (findUser : String → Option User) (cache : List String)
    (issuedUA : String)
    (hnc : token ∉ cache)
    (hua : payload.user_agent = some issuedUA)
    (hmismatch : issuedUA ≠ reqUA.getD "Null") :
    get_current_user requiredScopes reqUA token (.ok payload) findUser cache =
      (.error CREDENTIALS_EXCEPTION, token :: cache) ∧
    ∀ (rs2 : List String) (ua2 : Option String) (dec2 : DecodeResult)
      (fu2 : String → Option User) (cache2 : List String),
      token ∈ cache2 →
      get_current_user rs2 ua2 token dec2 fu2 cache2 =
        (.error CREDENTIALS_EXCEPTION, cache2) := by
  constructor
  · apply get_current_user_ua_mismatch _ _ _ _ _ _ hnc
    rw [hua]
    intro hcon
    injection hcon with h2
    exact hmismatch h2
  · intro rs2 ua2 dec2 fu2 cache2 hc
    exact get_current_user_cached _ _ _ _ _ _ hc

/-- C2 witness: a concrete token bound to user-agent "A", presented by a
client with user-agent "B", is burned; the burned token then fails even
with the original user-agent "A". -/
theorem c2_ua_mismatch_burns_token_witness :
    get_current_user [] (some "B") "t"
        (.ok ⟨some "u", some "e", some "A", []⟩) (fun _ => none) [] =
      (.error CREDENTIALS_EXCEPTION, ["t"]) ∧
    get_current_user [] (some "A") "t"
        (.ok ⟨some "u", some "e", some "A", []⟩) (fun _ => none) ["t"] =
      (.error CREDENTIALS_EXCEPTION, ["t"]) := by
  have h := c2_ua_mismatch_burns_token [] (some "B") "t"
    ⟨some "u", some "e", some "A", []⟩ (fun _ => none) [] "A"
    (by decide) rfl (by decide)
  exact ⟨h.1, h.2 [] (some "A") (.ok ⟨some "u", some "e", some "A", []⟩)
    (fun _ => none) ["t"] (by decide)⟩

/-! ### Claim C7 -/

/-- C7: issuance failure for an unknown username and issuance failure for
an existing user with a wrong password are the same error value (same
status code and same message), so the caller cannot distinguish the two
cases from the result. -/
theorem c7_unknown_user_wrong_password_indistinguishable
    (hashpw : String → String → String) (totpOk : String → String → Bool)
    (findUser1 findUser2 : String → Option User) (u1 u2 p1 p2 : String)
    (scopes1 scopes2 : List String) (mfa1 mfa2 : Option String)
    (ip1 ip2 ua1 ua2 : Option String) (user2 : User)
    (h1 : findUser1 u1 = none)
    (h2 : findUser2 u2 = some user2)
    (hwrong : hashpw p2 user2.salt ≠ user2.password) :
    (login hashpw totpOk findUser1 u1 p1 scopes1 mfa1 ip1 ua1).1 =
      .error LOGIN_FAILED ∧
    (login hashpw totpOk findUser2 u2 p2 scopes2 mfa2 ip2 ua2).1 =
      .error LOGIN_FAILED ∧
    (login hashpw totpOk findUser1 u1 p1 scopes1 mfa1 ip1 ua1).1 =
      (login hashpw totpOk findUser2 u2 p2 scopes2 mfa2 ip2 ua2).1 := by
  have e1 : (login hashpw totpOk findUser1 u1 p1 scopes1 mfa1 ip1 ua1).1 =
      .error LOGIN_FAILED := by
    unfold login; rw [h1]
  have e2 : (login hashpw totpOk findUser2 u2 p2 scopes2 mfa2 ip2 ua2).1 =
      .error LOGIN_FAILED := by
    unfold login; rw [h2]; dsimp only; rw [if_pos hwrong]
  exact ⟨e1, e2, by rw [e1, e2]⟩

/-- C7 witness: concrete unknown user "ghost" and concrete wrong password
for the existing user "bob" produce the identical error. -/
theorem c7_indistinguishable_witness :
    (login (fun p s => p ++ s) (fun _ _ => false) (fun _ => none)
      "ghost" "x" [] none none none).1 = .error LOGIN_FAILED ∧
    (login (fun p s => p ++ s) (fun _ _ => false)
      (fun s => if s = "bob" then some plainUser else none)
      "bob" "WRONG" [] none none none).1 = .error LOGIN_FAILED := by
  have h := c7_unknown_user_wrong_password_indistinguishable
    (fun p s => p ++ s) (fun _ _ => false) (fun _ => none)
    (fun s => if s = "bob" then some plainUser else none)
    "ghost" "bob" "x" "WRONG" [] [] none none none none none none
    plainUser rfl rfl (by decide)
  exact ⟨h.1, h.2.1⟩

/-! ### Claim C8 -/

/-- C8: an expired token and a token with an invalid signature fail with
the identical caller-visible authentication failure; a token whose
subject resolves to no live user record fails the same way; and a token
whose bound email no longer matches the stored email fails with a 401
authentication failure too (so an email change invalidates outstanding
tokens). -/
theorem c8_invalid_expired_stale_failures (requiredScopes : List String)
    (reqUA : Option String) (token : String) (payload : Payload)
    (findUser : String → Option User) (cache : List String)
    (username email : String) (user : User)
    (hnc : token ∉ cache) :
    (get_current_user requiredScopes reqUA token .expired findUser cache =
        get_current_user requiredScopes reqUA token .invalid findUser cache ∧
      (get_current_user requiredScopes reqUA token .expired findUser cache).1 =
        .error CREDENTIALS_EXCEPTION) ∧
    (payload.user_agent = some (reqUA.getD "Null") →
      payload.sub = some username → payload.email = some email →
      findUser username = none →
      (get_current_user requiredScopes reqUA token (.ok payload) findUser
        cache).1 = .error CREDENTIALS_EXCEPTION) ∧
    (payload.user_agent = some (reqUA.getD "Null") →
      payload.sub = some username → payload.email = some email →
      findUser username = some user → user.emailAddr ≠ email →
      (get_current_user requiredScopes reqUA token (.ok payload) findUser
        cache).1 = .error NEW_MAIL ∧ NEW_MAIL.status = 401) := by
  refine ⟨⟨?_, ?_⟩, ?_, ?_⟩
  · simp [get_current_user, hnc]
  · simp [get_current_user, hnc]
  · intro hua hsub hem hfu
    simp [get_current_user, hnc, hua, hsub, hem, hfu]
  · intro hua hsub hem hfu hmail
    refine ⟨?_, rfl⟩
    simp [get_current_user, hnc, hua, hsub, hem, hfu, hmail]

/-- C8 witness: at a concrete request, an expired token fails with the
generic failure and a stale-email token fails with the 401 "New email
set" error. -/
theorem c8_invalid_expired_stale_failures_witness :
    (get_current_user [] (some "UA") "t" .expired
      (fun s => if s = "bob" then some plainUser else none) []).1 =
      .error CREDENTIALS_EXCEPTION ∧
    (get_current_user [] (some "UA") "t"
      (.ok ⟨some "bob", some "old@example.com", some "UA", []⟩)
      (fun s => if s = "bob" then some plainUser else none) []).1 =
      .error NEW_MAIL := by
  have h := c8_invalid_expired_stale_failures [] (some "UA") "t"
    ⟨some "bob", some "old@example.com", some "UA", []⟩
    (fun s => if s = "bob" then some plainUser else none) []
    "bob" "old@example.com" plainUser (by decide)
  exact ⟨h.1.2, (h.2.2 rfl rfl rfl rfl (by decide)).1⟩

/-! ### Claim C9 -/

/-- C9: whenever token validation succeeds and resolves a user whose
banned flag is set, the protected operation fails with the "Banned user"
error, whatever scopes the operation required or the token carried. -/
theorem c9_banned_user_rejected (requiredScopes : List String)
    (reqUA : Option String) (token : String) (decode : DecodeResult)
    (findUser : String → Option User) (cache cache' : List String)
    (user : User)
    (h : get_current_user requiredScopes reqUA token decode findUser cache =
      (.ok user, cache'))
    (hb : user.banned = true) :
    get_current_active_user requiredScopes reqUA token decode findUser
      cache = (.error BANNED_ERROR, cache') := by
  unfold get_current_active_user
  rw [h]
  simp [hb]

/-- C9 witness: a concrete banned user with a fully valid token is
rejected with the "Banned user" error. -/
theorem c9_banned_user_rejected_witness :
    get_current_active_user [] (some "UA") "t"
      (.ok ⟨some "dave", some "dave@example.com", some "UA", []⟩)
      (fun s => if s = "dave" then some bannedUser else none) [] =
      (.error BANNED_ERROR, []) :=
  c9_banned_user_rejected [] (some "UA") "t"
    (.ok ⟨some "dave", some "dave@example.com", some "UA", []⟩)
    (fun s => if s = "dave" then some bannedUser else none) [] []
    bannedUser (by decide) rfl

/-! ### Claim C1 -/

/-- Modelled from the spec: claim C1's per-scope pass condition read as
written — validation passes a required scope when "the user has the owner
flag, or the scope is present in the token's granted-scopes list and
(unless the user is owner) also present in the user's current permission
bitmask".  To be compared with the behaviour of `get_current_user`. -/
def c1SpecAllows (user : User) (tokenScopes : List String)
    (scope : String) : Bool :=
  user.owner ||
    (tokenScopes.contains scope &&
      (user.owner || (get_scopes user.permissions).contains scope))

/-- C1 counterexample: for an owner whose token carries no scope claim
and a request requiring `ME`, the claim's condition (owner flag set)
says validation passes, but the code raises "Not enough permissions":
the scope-in-token check at authentication.py line 110 fires before the
owner bypass at line 116, for owners too. -/
theorem c1_spec_reading_fails_on_owner :
    (∀ s ∈ ["ME"], c1SpecAllows ownerUser [] s = true) ∧
    (get_current_user ["ME"] (some "UA") "tok"
        (.ok ⟨some "alice", some "alice@example.com", some "UA", []⟩)
        (fun s => if s = "alice" then some ownerUser else none) []).1 =
      .error ⟨401, "Not enough permissions", some (authValue ["ME"])⟩ := by
  decide

/-- C1 (amended): once the cache/decode/user-agent/lookup/email stages
pass, validation succeeds iff every required scope is in the token's
granted-scopes claim AND (the user is owner, or the scope is not `OWNER`
and is present in the permission bitmask recomputed from the live
record); the scope `OWNER` is always forbidden for non-owners; and for a
non-owner, a required scope missing from the live bitmask — e.g. revoked
after issuance — always fails with "Not enough permissions", even when
the unexpired token still carries the old scope claim. -/
theorem c1_scope_enforcement (requiredScopes : List String)
    (reqUA : Option String) (token : String) (payload : Payload)
    (findUser : String → Option User) (cache : List String)
    (username email : String) (user : User)
    (hnc : token ∉ cache)
    (hua : payload.user_agent = some (reqUA.getD "Null"))
    (hsub : payload.sub = some username) (hem : payload.email = some email)
    (hfu : findUser username = some user) (hmail : user.emailAddr = email) :
    ((get_current_user requiredScopes reqUA token (.ok payload) findUser
        cache).1 = .ok user ↔
      ∀ s ∈ requiredScopes, scopeAllowed user payload.scopes s = true) ∧
    (∀ s ∈ requiredScopes, user.owner = false →
      s ∉ get_scopes user.permissions →
      (get_current_user requiredScopes reqUA token (.ok payload) findUser
        cache).1 =
        .error ⟨401, "Not enough permissions",
          some (authValue requiredScopes)⟩) ∧
    (user.owner = false → "OWNER" ∈ requiredScopes →
      (get_current_user requiredScopes reqUA token (.ok payload) findUser
        cache).1 =
        .error ⟨401, "Not enough permissions",
          some (authValue requiredScopes)⟩) := by
  have hres := get_current_user_resolved requiredScopes reqUA token payload
    findUser cache username email user hnc hua hsub hem hfu hmail
  have hiff := checkScopes_eq_none_iff (authValue requiredScopes) user
    payload.scopes requiredScopes
  have hor := checkScopes_eq_none_or_err (authValue requiredScopes) user
    payload.scopes requiredScopes
  have hfailAll : ∀ s ∈ requiredScopes,
      scopeAllowed user payload.scopes s = false →
      (get_current_user requiredScopes reqUA token (.ok payload) findUser
        cache).1 =
        .error ⟨401, "Not enough permissions",
          some (authValue requiredScopes)⟩ := by
    intro s hs hfail
    have hne : checkScopes (authValue requiredScopes) user payload.scopes
        requiredScopes ≠ none := by
      intro hnone
      have hall := hiff.mp hnone s hs
      rw [hfail] at hall
      cases hall
    rcases hor with h | h
    · exact absurd h hne
    · rw [hres, h]
  refine ⟨?_, ?_, ?_⟩
  · rw [hres]
    rcases hor with h | h
    · rw [h]
      constructor
      · intro _; exact hiff.mp h
      · intro _; rfl
    · rw [h]
      constructor
      · intro hcon; exact Except.noConfusion hcon
      · intro hall
        have h2 := hiff.mpr hall
        rw [h] at h2
        exact Option.noConfusion h2
  · intro s hs hown hnotin
    apply hfailAll s hs
    simp [scopeAllowed, hown, hnotin]
  · intro hown hmem
    apply hfailAll "OWNER" hmem
    simp [scopeAllowed, hown]

/-- C1 witness: a concrete non-owner holding the `ME` bit, with a token
granting `ME`, passes a request requiring `ME`; the same non-owner with
the `ME` bit absent from the live bitmask is rejected despite the token
claim. -/
theorem c1_scope_enforcement_witness :
    (get_current_user ["ME"] (some "UA") "tok"
        (.ok ⟨some "bob", some "bob@example.com", some "UA", ["ME"]⟩)
        (fun s => if s = "bob" then some plainUser else none) []).1 =
      .ok plainUser := by
  have h := c1_scope_enforcement ["ME"] (some "UA") "tok"
    ⟨some "bob", some "bob@example.com", some "UA", ["ME"]⟩
    (fun s => if s = "bob" then some plainUser else none) []
    "bob" "bob@example.com" plainUser (by decide) rfl rfl rfl rfl rfl
  exact h.1.mpr (by decide)

/-! ### Claim C4 -/

/-- C4: every successful issuance signs a granted-scopes claim equal to
the client-requested scope list as-is — no intersection with the user's
permission bitmask — with `OWNER` appended exactly when the user's owner
flag is set. -/
theorem c4_issued_scopes (hashpw : String → String → String)
    (totpOk : String → String → Bool) (findUser : String → Option User)
    (un pw : String) (scopes : List String) (mfa : Option String)
    (ip ua : Option String) (tok : IssuedToken) (after : Option User)
    (user : User)
    (hfu : findUser un = some user)
    (h : login hashpw totpOk findUser un pw scopes mfa ip ua =
      (.ok tok, after)) :
    tok.scopes = (if user.owner then scopes ++ ["OWNER"] else scopes) := by
  obtain ⟨u0, u1, hfu0, _, _, hscopes0, _⟩ :=
    login_ok_inv _ _ _ _ _ _ _ _ _ _ _ h
  have he := hfu.symm.trans hfu0
  injection he with he2
  rw [he2]
  exact hscopes0

/-- C4 witness: a concrete owner requesting `["ME"]` receives the scope
claim `["ME", "OWNER"]`, i.e. the requested list with `OWNER` appended. -/
theorem c4_issued_scopes_witness :
    (IssuedToken.mk "alice" "alice@example.com" ["ME", "OWNER"] "Null"
        "Null").scopes =
      (if ownerUser.owner then ["ME"] ++ ["OWNER"] else ["ME"]) :=
  c4_issued_scopes (fun p s => p ++ s) (fun _ _ => false)
    (fun s => if s = "alice" then some ownerUser else none)
    "alice" "secret" ["ME"] none none none
    (IssuedToken.mk "alice" "alice@example.com" ["ME", "OWNER"] "Null"
      "Null")
    (some ownerUser) ownerUser rfl (by decide)

/-! ### Claim C3 -/

theorem markUsed_matching_used (tok : String) (l : List RecoveryCode) :
    ∀ d ∈ markUsed tok l, d.code = tok → d.used = true := by
  intro d hd
  simp only [markUsed, List.mem_map] at hd
  obtain ⟨c, hc, rfl⟩ := hd
  intro hcode
  by_cases h : c.code = tok
  · rw [if_pos h]
  · rw [if_neg h] at hcode
    exact absurd hcode h

theorem markUsed_exists (tok : String) (l : List RecoveryCode)
    (c : RecoveryCode) (hc : c ∈ l) (hcode : c.code = tok) :
    ∃ d ∈ markUsed tok l, d.code = tok ∧ d.used = true := by
  refine ⟨{ c with used := true }, ?_, hcode, rfl⟩
  simp only [markUsed, List.mem_map]
  exact ⟨c, hc, by rw [if_pos hcode]⟩

/-- C3: for an MFA-enabled user and a stored, still-unused recovery code
(no other row sharing its string), submitting that code when TOTP fails:
the first verification returns True and marks the code used; the second
verification of the very same code fails with "Recovery code already
used!" and neither grants access nor changes state; and across any
verification whatsoever the used flags only ever go from false to true —
they are never reset. -/
theorem c3_recovery_code_single_use (totpOk : String → String → Bool)
    (user : User) (secret : String) (c : RecoveryCode)
    (hmfa : user.mfa = true) (hsec : user.mfa_secret = some secret)
    (htotp : totpOk secret c.code = false)
    (hmem : c ∈ user.recoveryCodes) (hunused : c.used = false)
    (hfresh : ∀ d ∈ user.recoveryCodes, d.code = c.code → d.used = false) :
    (is_valid_2fa_token totpOk c.code user).1 = .ok true ∧
    (is_valid_2fa_token totpOk c.code user).2.recoveryCodes =
      markUsed c.code user.recoveryCodes ∧
    (∃ d ∈ (is_valid_2fa_token totpOk c.code user).2.recoveryCodes,
      d.code = c.code ∧ d.used = true) ∧
    (is_valid_2fa_token totpOk c.code
      (is_valid_2fa_token totpOk c.code user).2).1 = .error RECOVERY_USED ∧
    (is_valid_2fa_token totpOk c.code
      (is_valid_2fa_token totpOk c.code user).2).2 =
      (is_valid_2fa_token totpOk c.code user).2 ∧
    (∀ (v : User) (t : String),
      usedMonotone v.recoveryCodes
        (is_valid_2fa_token totpOk t v).2.recoveryCodes) := by
  have hany : user.recoveryCodes.any (fun d => d.code == c.code) = true :=
    List.any_eq_true.mpr ⟨c, hmem, by simp⟩
  have hcons := consumeCodes_all_unused c.code user.recoveryCodes false hfresh
  rw [hany] at hcons
  simp only [Bool.or_true] at hcons
  have heq : is_valid_2fa_token totpOk c.code user =
      (.ok true,
        { user with recoveryCodes := markUsed c.code user.recoveryCodes }) := by
    unfold is_valid_2fa_token
    rw [hsec]
    dsimp only
    rw [htotp, hcons]
    rfl
  have hall2 : ∀ d ∈ markUsed c.code user.recoveryCodes,
      d.code = c.code → d.used = true :=
    markUsed_matching_used c.code user.recoveryCodes
  have hex2 : ∃ d ∈ markUsed c.code user.recoveryCodes,
      d.code = c.code ∧ d.used = true :=
    markUsed_exists c.code user.recoveryCodes c hmem rfl
  have hany2 : (markUsed c.code user.recoveryCodes).any
      (fun d => d.code == c.code) = true := by
    obtain ⟨d, hd, hdc, _⟩ := hex2
    exact List.any_eq_true.mpr ⟨d, hd, by simp [hdc]⟩
  have hcons2 :=
    consumeCodes_all_used c.code (markUsed c.code user.recoveryCodes) false
      hall2
  rw [hany2] at hcons2
  simp only [if_true] at hcons2
  have heq2 : is_valid_2fa_token totpOk c.code
      { user with recoveryCodes := markUsed c.code user.recoveryCodes } =
      (.error RECOVERY_USED,
        { user with recoveryCodes := markUsed c.code user.recoveryCodes }) := by
    unfold is_valid_2fa_token
    dsimp only
    rw [hsec]
    dsimp only
    rw [htotp, hcons2]
    rfl
  refine ⟨by rw [heq], by rw [heq], ?_, by rw [heq]; rw [heq2],
    by rw [heq]; rw [heq2], ?_⟩
  · rw [heq]
    exact hex2
  · intro v t
    exact (is_valid_2fa_token_state totpOk t v).2.2.2.2.2.2.2.2.2.2

/-- C3 witness: the concrete MFA user consuming the recovery code
"AB12 CD34" once succeeds; resubmitting it fails with the already-used
error. -/
theorem c3_recovery_code_single_use_witness :
    (is_valid_2fa_token (fun _ _ => false) "AB12 CD34" mfaUser).1 =
      .ok true ∧
    (is_valid_2fa_token (fun _ _ => false) "AB12 CD34"
      (is_valid_2fa_token (fun _ _ => false) "AB12 CD34" mfaUser).2).1 =
      .error RECOVERY_USED := by
  have h := c3_recovery_code_single_use (fun _ _ => false) mfaUser "SECRET"
    ⟨1, "AB12 CD34", false⟩ rfl rfl rfl (by decide) rfl (by decide)
  exact ⟨h.1, h.2.2.2.1⟩

/-! ### Claim C10 -/

/-- C10: a login request without a User-Agent header binds the literal
string "Null" into the token's user-agent claim; validation of such a
token passes the user-agent check exactly for requests that also lack
the header or literally send "Null" (succeeding outright when the other
validation stages pass), and the first request presenting any other
user-agent burns the token into the revocation cache. -/
theorem c10_null_user_agent_default (hashpw : String → String → String)
    (totpOk : String → String → Bool) (findUser : String → Option User)
    (un pw : String) (scopes : List String) (mfa : Option String)
    (ip : Option String) (tok : IssuedToken) (after : Option User)
    (requiredScopes : List String) (token : String) (payload : Payload)
    (findUser2 : String → Option User) (cache : List String)
    (username2 email2 : String) (user : User)
    (hlogin : login hashpw totpOk findUser un pw scopes mfa ip none =
      (.ok tok, after))
    (hpua : payload.user_agent = some tok.user_agent)
    (hnc : token ∉ cache)
    (hsub : payload.sub = some username2) (hem : payload.email = some email2)
    (hfu : findUser2 username2 = some user) (hmail : user.emailAddr = email2)
    (hscopes : checkScopes (authValue requiredScopes) user payload.scopes
      requiredScopes = none) :
    tok.user_agent = "Null" ∧
    (∀ reqUA : Option String, (reqUA = none ∨ reqUA = some "Null") →
      get_current_user requiredScopes reqUA token (.ok payload) findUser2
        cache = (.ok user, cache)) ∧
    (∀ ua : String, ua ≠ "Null" →
      get_current_user requiredScopes (some ua) token (.ok payload)
        findUser2 cache = (.error CREDENTIALS_EXCEPTION, token :: cache)) := by
  obtain ⟨u0, u1, _, _, _, _, _, _, _, hua⟩ :=
    login_ok_inv _ _ _ _ _ _ _ _ _ _ _ hlogin
  have hnull : tok.user_agent = "Null" := by rw [hua]; rfl
  refine ⟨hnull, ?_, ?_⟩
  · intro reqUA hre
    have hgd : reqUA.getD "Null" = "Null" := by
      rcases hre with h | h <;> subst h <;> rfl
    have hres := get_current_user_resolved requiredScopes reqUA token payload
      findUser2 cache username2 email2 user hnc
      (by rw [hpua, hnull, hgd]) hsub hem hfu hmail
    rw [hres, hscopes]
  · intro ua2 hne
    apply get_current_user_ua_mismatch _ _ _ _ _ _ hnc
    rw [hpua, hnull]
    intro hcon
    injection hcon with h2
    exact hne h2.symm

/-- C10 witness: a concrete login without a User-Agent header issues a
token bound to "Null"; its payload validates for a header-less request
and is burned by a request with user-agent "Other". -/
theorem c10_null_user_agent_default_witness :
    get_current_user ["ME"] none "t"
        (.ok ⟨some "bob", some "bob@example.com", some "Null", ["ME"]⟩)
        (fun s => if s = "bob" then some plainUser else none) [] =
      (.ok plainUser, []) ∧
    get_current_user ["ME"] (some "Other") "t"
        (.ok ⟨some "bob", some "bob@example.com", some "Null", ["ME"]⟩)
        (fun s => if s = "bob" then some plainUser else none) [] =
      (.error CREDENTIALS_EXCEPTION, ["t"]) := by
  have h := c10_null_user_agent_default (fun p s => p ++ s)
    (fun _ _ => false) (fun s => if s = "bob" then some plainUser else none)
    "bob" "pw0" ["ME"] none none
    (IssuedToken.mk "bob" "bob@example.com" ["ME"] "Null" "Null")
    (some plainUser) ["ME"] "t"
    ⟨some "bob", some "bob@example.com", some "Null", ["ME"]⟩
    (fun s => if s = "bob" then some plainUser else none) []
    "bob" "bob@example.com" plainUser (by decide) rfl (by decide) rfl rfl
    rfl rfl (by decide)
  exact ⟨h.2.1 none (Or.inl rfl), h.2.2 "Other" (by decide)⟩

/-! ### Claim C5 -/

theorem choiceChar_mem (stream : Nat → Nat) (i : Nat) :
    choiceChar stream i ∈ characters := by
  unfold choiceChar
  have hlt : stream i % characters.length < characters.length :=
    Nat.mod_lt _ (by decide)
  rw [List.getD_eq_getElem characters 'a' hlt]
  exact List.getElem_mem hlt

theorem genCode_toList (stream : Nat → Nat) (base : Nat) :
    (genCode stream base).toList =
      [choiceChar stream (base + 0), choiceChar stream (base + 1),
       choiceChar stream (base + 2), choiceChar stream (base + 3), ' ',
       choiceChar stream (base + 4), choiceChar stream (base + 5),
       choiceChar stream (base + 6), choiceChar stream (base + 7)] := by
  have h4 : List.range 4 = [0, 1, 2, 3] := rfl
  show (genCode stream base).data = _
  simp [genCode, genGroup, String.data_append, h4]

theorem genCode_format (stream : Nat → Nat) (base : Nat) :
    isRecoveryCodeFormat (genCode stream base) = true := by
  have hc : ∀ i, characters.contains (choiceChar stream i) = true :=
    fun i => List.elem_iff.mpr (choiceChar_mem stream i)
  unfold isRecoveryCodeFormat
  rw [genCode_toList]
  simp [choiceChar_mem]

theorem enum_map_code (firstId : Nat) (codes : List String) :
    ((codes.enum.map
      (fun p => (⟨firstId + p.1, p.2, false⟩ : RecoveryCode))).map
        (fun c => c.code)) = codes := by
  rw [List.map_map]
  have hcomp : ((fun c : RecoveryCode => c.code) ∘
      fun p : Nat × String => (⟨firstId + p.1, p.2, false⟩ : RecoveryCode)) =
      Prod.snd := by
    funext p; rfl
  rw [hcomp, List.enum_map_snd]

/-- C5 (amended): activating MFA replaces the user's stored recovery
codes with the freshly generated batch — the stored rows are exactly the
8 returned code strings (old rows are gone), all unused, each formatted
as two 4-character alphanumeric groups separated by a single space, and
the mfa flag is set; any code string not in the new batch (in particular
any deleted old code that does not collide with a new one) fails
verification afterwards without changing state.  The claim's
"8 distinct codes" does not hold: the generator draws independently and
nothing removes duplicates. -/
theorem c5_activation_batch (stream : Nat → Nat) (firstId : Nat)
    (user : User) :
    (activate_2fa stream firstId user).2.length = 8 ∧
    (activate_2fa stream firstId user).1.recoveryCodes.map
      (fun c => c.code) = (activate_2fa stream firstId user).2 ∧
    (∀ c ∈ (activate_2fa stream firstId user).1.recoveryCodes,
      c.used = false) ∧
    (∀ s ∈ (activate_2fa stream firstId user).2,
      isRecoveryCodeFormat s = true) ∧
    (activate_2fa stream firstId user).1.mfa = true ∧
    (∀ (totpOk : String → String → Bool) (secret s : String),
      user.mfa_secret = some secret → totpOk secret s = false →
      s ∉ (activate_2fa stream firstId user).2 →
      is_valid_2fa_token totpOk s (activate_2fa stream firstId user).1 =
        (.ok false, (activate_2fa stream firstId user).1)) := by
  refine ⟨?_, ?_, ?_, ?_, rfl, ?_⟩
  · simp [activate_2fa, generate_recovery_codes]
  · exact enum_map_code firstId (generate_recovery_codes stream)
  · intro c hc
    simp only [activate_2fa, List.mem_map] at hc
    obtain ⟨p, _, rfl⟩ := hc
    rfl
  · intro s hs
    simp only [activate_2fa, generate_recovery_codes, List.mem_map] at hs
    obtain ⟨k, _, rfl⟩ := hs
    exact genCode_format stream (8 * k)
  · intro totpOk secret s hsec htotp hnot
    have hmap : (activate_2fa stream firstId user).1.recoveryCodes.map
        (fun c => c.code) = (activate_2fa stream firstId user).2 :=
      enum_map_code firstId (generate_recovery_codes stream)
    have hnm : ∀ c ∈ (activate_2fa stream firstId user).1.recoveryCodes,
        c.code ≠ s := by
      intro c hc hcs
      apply hnot
      rw [← hcs, ← hmap]
      exact List.mem_map_of_mem _ hc
    have hcons := consumeCodes_no_match s
      (activate_2fa stream firstId user).1.recoveryCodes false hnm
    unfold is_valid_2fa_token
    rw [show (activate_2fa stream firstId user).1.mfa_secret = some secret
      from hsec]
    dsimp only
    rw [htotp, hcons, ← hsec]
    rfl

/-- C5 witness: with the identity index stream and a concrete user, the
batch has 8 well-formatted codes, the stored rows are exactly the
returned batch, and a stale code string absent from the batch fails. -/
theorem c5_activation_batch_witness :
    (activate_2fa (fun i => i) 10 mfaUser).2.length = 8 ∧
    isRecoveryCodeFormat "abcd efgh" = true ∧
    is_valid_2fa_token (fun _ _ => false) "AB12 CD34"
        (activate_2fa (fun i => i) 10 mfaUser).1 =
      (.ok false, (activate_2fa (fun i => i) 10 mfaUser).1) := by
  have h := c5_activation_batch (fun i => i) 10 mfaUser
  exact ⟨h.1, h.2.2.2.1 "abcd efgh" (by decide),
    h.2.2.2.2.2 (fun _ _ => false) "SECRET" "AB12 CD34" rfl rfl (by decide)⟩

/-- An account holding one already-used stale recovery code whose string
coincides with what the constant randomness stream regenerates. -/
def staleUser : User :=
  ⟨5, "erin", "erin@example.com", false, 1, false, true, some "SECRET",
   "h", "s", [⟨9, "aaaa aaaa", true⟩]⟩

/-- C5 counterexample: with the constant randomness stream, activation
produces a batch of 8 *identical* codes — so the claimed distinctness of
the batch fails — and the stale code string "aaaa aaaa", though its old
row was deleted, validates again afterwards because it collides with the
regenerated batch. -/
theorem c5_distinctness_fails :
    ¬ (activate_2fa (fun _ => 0) 100 staleUser).2.Nodup ∧
    "aaaa aaaa" ∈ (activate_2fa (fun _ => 0) 100 staleUser).2 ∧
    (is_valid_2fa_token (fun _ _ => false) "aaaa aaaa"
      (activate_2fa (fun _ => 0) 100 staleUser).1).1 = .ok true := by
  decide

/-! ### Claim C6 -/

/-- After the password and MFA gates pass, `change_password` is the tail
check on some user state that agrees with the original on every field
except (possibly) monotonically consumed recovery codes. -/
theorem change_password_gate_step (hashpw : String → String → String)
    (totpOk : String → String → Bool) (newSalt : String) (user : User)
    (oldPw newPw : String) (mfaToken : Option String)
    (hverify : hashpw oldPw user.salt = user.password)
    (hgate : user.mfa = false ∨ ∃ tok, mfaToken = some tok ∧ tok ≠ "" ∧
      (is_valid_2fa_token totpOk tok user).1 = .ok true) :
    ∃ u', change_password hashpw totpOk newSalt user oldPw newPw mfaToken =
        changePasswordTail hashpw newSalt u' oldPw newPw ∧
      u'.id = user.id ∧ u'.username = user.username ∧
      u'.emailAddr = user.emailAddr ∧ u'.banned = user.banned ∧
      u'.permissions = user.permissions ∧ u'.owner = user.owner ∧
      u'.mfa = user.mfa ∧ u'.mfa_secret = user.mfa_secret ∧
      u'.password = user.password ∧ u'.salt = user.salt ∧
      usedMonotone user.recoveryCodes u'.recoveryCodes ∧
      (user.mfa = false → u' = user) := by
  have hv : ¬ hashpw oldPw user.salt ≠ user.password := by
    rw [hverify]; exact fun hcon => hcon rfl
  by_cases hmf : user.mfa = true
  · rcases hgate with hgf | ⟨tok, htok, hne, hok⟩
    · rw [hmf] at hgf; cases hgf
    · refine ⟨(is_valid_2fa_token totpOk tok user).2, ?_, ?_⟩
      · unfold change_password
        rw [if_neg hv]
        rw [if_neg (by
          intro hcon
          rcases hcon.2 with h | h
          · rw [htok] at h; cases h
          · rw [htok] at h; injection h with h2; exact hne h2)]
        rw [if_pos hmf, htok]
        dsimp only
        rcases hiv : is_valid_2fa_token totpOk tok user with ⟨r, u2⟩
        rw [hiv] at hok
        dsimp only at hok
        subst hok
        rfl
      · have hst := is_valid_2fa_token_state totpOk tok user
        refine ⟨hst.1, hst.2.1, hst.2.2.1, hst.2.2.2.1, hst.2.2.2.2.1,
          hst.2.2.2.2.2.1, hst.2.2.2.2.2.2.1, hst.2.2.2.2.2.2.2.1,
          hst.2.2.2.2.2.2.2.2.1, hst.2.2.2.2.2.2.2.2.2.1,
          hst.2.2.2.2.2.2.2.2.2.2, ?_⟩
        intro hcon; rw [hmf] at hcon; cases hcon
  · have hmf' : user.mfa = false := by
      cases hb : user.mfa
      · rfl
      · exact absurd hb hmf
    refine ⟨user, ?_, rfl, rfl, rfl, rfl, rfl, rfl, rfl, rfl, rfl, rfl,
      usedMonotone_refl _, fun _ => rfl⟩
    unfold change_password
    rw [if_neg hv]
    rw [if_neg (by intro hcon; rw [hmf'] at hcon; cases hcon.1)]
    rw [if_neg (by rw [hmf']; exact fun hcon => Bool.noConfusion hcon)]

/-- C6 (amended): with the old password correct and the MFA gate passed,
a change-password request with old = new fails `SamePassword` and leaves
the password hash, the salt, and every other user field unchanged —
except that a recovery code submitted to satisfy the MFA gate is still
consumed (its used flag set), so for a user without MFA the record is
completely unchanged; and a request with old ≠ new whose new password is
shorter than 8 characters fails `PasswordTooShort` without replacing
hash or salt. -/
theorem c6_change_password_guards (hashpw : String → String → String)
    (totpOk : String → String → Bool) (newSalt : String) (user : User)
    (oldPw newPw : String) (mfaToken : Option String)
    (hverify : hashpw oldPw user.salt = user.password)
    (hgate : user.mfa = false ∨ ∃ tok, mfaToken = some tok ∧ tok ≠ "" ∧
      (is_valid_2fa_token totpOk tok user).1 = .ok true) :
    (oldPw = newPw →
      (change_password hashpw totpOk newSalt user oldPw newPw mfaToken).1 =
        .error SAME_PASSWORD ∧
      (user.mfa = false →
        (change_password hashpw totpOk newSalt user oldPw newPw
          mfaToken).2 = user) ∧
      (change_password hashpw totpOk newSalt user oldPw newPw
        mfaToken).2.password = user.password ∧
      (change_password hashpw totpOk newSalt user oldPw newPw
        mfaToken).2.salt = user.salt ∧
      (change_password hashpw totpOk newSalt user oldPw newPw
        mfaToken).2.id = user.id ∧
      (change_password hashpw totpOk newSalt user oldPw newPw
        mfaToken).2.username = user.username ∧
      (change_password hashpw totpOk newSalt user oldPw newPw
        mfaToken).2.emailAddr = user.emailAddr ∧
      (change_password hashpw totpOk newSalt user oldPw newPw
        mfaToken).2.banned = user.banned ∧
      (change_password hashpw totpOk newSalt user oldPw newPw
        mfaToken).2.permissions = user.permissions ∧
      (change_password hashpw totpOk newSalt user oldPw newPw
        mfaToken).2.owner = user.owner ∧
      (change_password hashpw totpOk newSalt user oldPw newPw
        mfaToken).2.mfa = user.mfa ∧
      (change_password hashpw totpOk newSalt user oldPw newPw
        mfaToken).2.mfa_secret = user.mfa_secret ∧
      usedMonotone user.recoveryCodes
        (change_password hashpw totpOk newSalt user oldPw newPw
          mfaToken).2.recoveryCodes) ∧
    (oldPw ≠ newPw → newPw.length < 8 →
      (change_password hashpw totpOk newSalt user oldPw newPw mfaToken).1 =
        .error PASSWORD_TOO_SHORT ∧
      (change_password hashpw totpOk newSalt user oldPw newPw
        mfaToken).2.password = user.password ∧
      (change_password hashpw totpOk newSalt user oldPw newPw
        mfaToken).2.salt = user.salt) := by
  obtain ⟨u', hstep, hid, hun, hem, hba, hpe, how, hmf, hms, hpw, hsa,
    hmono, hplain⟩ :=
    change_password_gate_step hashpw totpOk newSalt user oldPw newPw
      mfaToken hverify hgate
  constructor
  · intro hsame
    have htail : changePasswordTail hashpw newSalt u' oldPw newPw =
        (.error SAME_PASSWORD, u') := by
      unfold changePasswordTail
      rw [if_pos hsame]
    rw [hstep, htail]
    exact ⟨rfl, fun hpl => hplain hpl, hpw, hsa, hid, hun, hem, hba, hpe,
      how, hmf, hms, hmono⟩
  · intro hne hlen
    have htail : changePasswordTail hashpw newSalt u' oldPw newPw =
        (.error PASSWORD_TOO_SHORT, u') := by
      unfold changePasswordTail
      rw [if_neg hne, if_pos hlen]
    rw [hstep, htail]
    exact ⟨rfl, hpw, hsa⟩

/-- C6 counterexample: for the concrete MFA user submitting the unused
recovery code "AB12 CD34" with old = new = "pw": the call fails
`SamePassword` as claimed, but the stored state is *not* unchanged — the
recovery code's used flag has been set on the failure path — and,
although the new password is shorter than 8 characters, the failure is
not `PasswordTooShort`. -/
theorem c6_same_password_consumes_recovery_code :
    (change_password (fun p s => p ++ s) (fun _ _ => false) "ns" mfaUser
      "pw" "pw" (some "AB12 CD34")).1 = .error SAME_PASSWORD ∧
    (change_password (fun p s => p ++ s) (fun _ _ => false) "ns" mfaUser
      "pw" "pw" (some "AB12 CD34")).2 ≠ mfaUser ∧
    (change_password (fun p s => p ++ s) (fun _ _ => false) "ns" mfaUser
      "pw" "pw" (some "AB12 CD34")).2.recoveryCodes =
      [⟨1, "AB12 CD34", true⟩] ∧
    (change_password (fun p s => p ++ s) (fun _ _ => false) "ns" mfaUser
      "pw" "pw" (some "AB12 CD34")).1 ≠ .error PASSWORD_TOO_SHORT := by
  decide

/-- C6 witness: for the concrete user without MFA, old = new fails
`SamePassword` with the record completely unchanged, and a fresh short
password fails `PasswordTooShort` without replacing hash or salt. -/
theorem c6_change_password_guards_witness :
    (change_password (fun p s => p ++ s) (fun _ _ => false) "ns" plainUser
      "pw0" "pw0" none).1 = .error SAME_PASSWORD ∧
    (change_password (fun p s => p ++ s) (fun _ _ => false) "ns" plainUser
      "pw0" "pw0" none).2 = plainUser ∧
    (change_password (fun p s => p ++ s) (fun _ _ => false) "ns" plainUser
      "pw0" "short" none).1 = .error PASSWORD_TOO_SHORT ∧
    (change_password (fun p s => p ++ s) (fun _ _ => false) "ns" plainUser
      "pw0" "short" none).2.password = plainUser.password := by
  have h1 := c6_change_password_guards (fun p s => p ++ s)
    (fun _ _ => false) "ns" plainUser "pw0" "pw0" none rfl (Or.inl rfl)
  have h2 := c6_change_password_guards (fun p s => p ++ s)
    (fun _ _ => false) "ns" plainUser "pw0" "short" none rfl (Or.inl rfl)
  exact ⟨(h1.1 rfl).1, (h1.1 rfl).2.1 rfl, (h2.2 (by decide) (by decide)).1,
    (h2.2 (by decide) (by decide)).2.1⟩

end OpenGymStats
